import Mathlib

/-!
Shallow embedding of the exam session controller in
`src/components/exam/ExamClient.tsx`: session state, submission latch,
violation monitor, countdown timer, answer/review mutators, navigation
buttons and the question-loading tail.  React state updates become pure
functions on an explicit `ExamState`; external effects that the spec
talks about (localStorage snapshot writes, scheduled router navigations,
toasts) are recorded in append-only logs inside the state.
-/

namespace ExamClient

/-- Design constant `EXAM_DURATION = 2 * 60 * 60` (seconds). -/
def EXAM_DURATION : Nat := 2 * 60 * 60

/-- Design constant `MAX_VIOLATIONS = 3`. -/
def MAX_VIOLATIONS : Nat := 3

/-- A question record as consumed by `ExamClient` (fields `id`, `topic`,
`question`, `options` are the ones the component reads; the correct-answer
field is opaque to this core and kept as a plain string). -/
structure Question where
  id : Nat
  topic : String
  question : String
  options : List String
  correctAnswer : String
deriving DecidableEq

/-- The result snapshot written to `localStorage` under `"lastExamData"`:
`{ answers, questions, examName, startedAt, submittedAt }`. -/
structure Snapshot where
  answers : List (Nat × String)
  questions : List Question
  examName : String
  startedAt : String
  submittedAt : String
deriving DecidableEq

/-- The state of the component.  `questions = none` models the initial `null`;
`isSubmitting` is the `useRef` submission latch; `timerCleared` records that
`clearInterval` ran on the countdown interval.  `snapshotWrites`,
`navigations` and `toasts` log the external effects (localStorage writes,
`router.replace`/`router.push` targets, toast titles). -/
structure ExamState where
  questions : Option (List Question)
  currentQuestionIndex : Nat
  answers : List (Nat × String)
  markedForReview : List Nat
  timeLeft : Nat
  isSubmitDialogOpen : Bool
  isExitDialogOpen : Bool
  examName : String
  isSubmitting : Bool
  startedAt : String
  violationCount : Nat
  isViolationDialogOpen : Bool
  violationMessage : String
  timerCleared : Bool
  snapshotWrites : List Snapshot
  navigations : List String
  toasts : List String
deriving DecidableEq

/-- JS object update `{ ...prev, [k]: v }` on the answer sheet: overwrite in
place when the key is present, otherwise append the new entry. -/
def setKey (m : List (Nat × String)) (k : Nat) (v : String) :
    List (Nat × String) :=
  if m.any (fun p => p.1 = k) then
    m.map (fun p => if p.1 = k then (k, v) else p)
  else
    m ++ [(k, v)]

/-- JS `delete newAnswers[questionId]`: drop every entry with the key. -/
def delKey (m : List (Nat × String)) (k : Nat) : List (Nat × String) :=
  m.filter (fun p => p.1 ≠ k)

/-- JS property read `answers[questionId]`: first entry with the key. -/
def lookupKey : List (Nat × String) → Nat → Option String
  | [], _ => none
  | p :: rest, k => if p.1 = k then some p.2 else lookupKey rest k

/-- Function `handleSubmit` (ExamClient.tsx lines 72-92): return at once if the
`isSubmitting` latch is set; otherwise set the latch, write the result
snapshot to localStorage when `questions` is non-null, and schedule the
one navigation `router.replace("/results")`.  `now` stands for
`new Date().toISOString()`. -/
def handleSubmit (now : String) (s : ExamState) : ExamState :=
  if s.isSubmitting then s
  else
    let s1 := { s with isSubmitting := true }
    let s2 :=
      match s1.questions with
      | some qs =>
          { s1 with
            snapshotWrites := s1.snapshotWrites ++
              [Snapshot.mk s1.answers qs s1.examName s1.startedAt now] }
      | none => s1
    { s2 with navigations := s2.navigations ++ ["/results"] }

/-- Function `handleViolation` (lines 94-108): increment the violation counter, then
either terminate (toast + `handleSubmit`) at the threshold or open the
warning dialog with the escalating message. -/
def handleViolation (message now : String) (s : ExamState) : ExamState :=
  let s1 := { s with violationCount := s.violationCount + 1 }
  if MAX_VIOLATIONS ≤ s1.violationCount then
    handleSubmit now { s1 with toasts := s1.toasts ++ ["Exam Terminated"] }
  else
    { s1 with
      violationMessage := message ++ ". You have " ++
        toString (MAX_VIOLATIONS - s1.violationCount) ++ " warning(s) left.",
      isViolationDialogOpen := true }

/-- The message passed by the `fullscreenchange` listener (line 191). -/
def fullscreenExitedMessage : String := "You have exited fullscreen mode"

/-- The message passed by the `visibilitychange` listener (line 197). -/
def tabHiddenMessage : String := "You have switched to another tab or window"

/-- Listener `handleFullscreenChange` (lines 189-193): a violation only when the
document is no longer fullscreen. -/
def handleFullscreenChange (fullscreenElement : Bool) (now : String)
    (s : ExamState) : ExamState :=
  if fullscreenElement then s
  else handleViolation fullscreenExitedMessage now s

/-- Listener `handleVisibilityChange` (lines 195-199): a violation only when the
document became hidden. -/
def handleVisibilityChange (hidden : Bool) (now : String)
    (s : ExamState) : ExamState :=
  if hidden then handleViolation tabHiddenMessage now s else s

/-- The violation-dialog button (lines 402-409): close the dialog and
re-request fullscreen (an environment effect with no state impact here). -/
def acknowledgeViolation (s : ExamState) : ExamState :=
  { s with isViolationDialogOpen := false }

/-- The `setInterval` tick callback (lines 177-187): once the interval is
cleared nothing fires; at `timeLeft <= 1` clear the interval, toast,
submit, and pin `timeLeft` to 0; otherwise decrement. -/
def tick (now : String) (s : ExamState) : ExamState :=
  if s.timerCleared then s
  else if s.timeLeft ≤ 1 then
    let s1 := { s with
      timerCleared := true,
      toasts := s.toasts ++ ["Times Up"] }
    let s2 := handleSubmit now s1
    { s2 with timeLeft := 0 }
  else
    { s with timeLeft := s.timeLeft - 1 }

/-- Iterate the tick callback `n` times. -/
def ticksN (now : String) : Nat → ExamState → ExamState
  | 0, s => s
  | n + 1, s => ticksN now n (tick now s)

/-- Function `handleAnswerSelect` (lines 211-213): `setAnswers(prev => ({ ...prev,
[questionId]: answer }))` — no validation, no submission guard. -/
def handleAnswerSelect (questionId : Nat) (answer : String)
    (s : ExamState) : ExamState :=
  { s with answers := setKey s.answers questionId answer }

/-- Function `handleMarkForReview` (lines 215-219): remove the id when present,
otherwise append it. -/
def handleMarkForReview (questionId : Nat) (s : ExamState) : ExamState :=
  { s with
    markedForReview :=
      if s.markedForReview.contains questionId then
        s.markedForReview.filter (fun id => id ≠ questionId)
      else
        s.markedForReview ++ [questionId] }

/-- The list computation inside `handleMarkForReview`, named for reuse in
lemmas (it is definitionally what the updater stores). -/
def toggleReviewList (l : List Nat) (q : Nat) : List Nat :=
  if l.contains q then l.filter (fun id => id ≠ q) else l ++ [q]

/-- Function `clearResponse` (lines 221-227): return if `questions` is null, else
delete the entry of the current question from `answers`. -/
def clearResponse (s : ExamState) : ExamState :=
  match s.questions with
  | none => s
  | some qs =>
      match qs[s.currentQuestionIndex]? with
      | none => s
      | some q => { s with answers := delKey s.answers q.id }

/-- The Prev button `onClick` (line 325):
`setCurrentQuestionIndex(prev => Math.max(0, prev - 1))`. -/
def prevClick (s : ExamState) : ExamState :=
  { s with
    currentQuestionIndex :=
      (max 0 ((s.currentQuestionIndex : Int) - 1)).toNat }

/-- The Next button `onClick` (line 328):
`setCurrentQuestionIndex(prev => Math.min(questions.length - 1, prev + 1))`;
the button only exists when `questions` is non-null. -/
def nextClick (s : ExamState) : ExamState :=
  match s.questions with
  | none => s
  | some qs =>
      { s with
        currentQuestionIndex :=
          (min ((qs.length : Int) - 1)
            ((s.currentQuestionIndex : Int) + 1)).toNat }

/-- A sequence of Prev/Next presses: `true` is Next, `false` is Prev. -/
def applyNav (presses : List Bool) (s : ExamState) : ExamState :=
  presses.foldl (fun t b => if b then nextClick t else prevClick t) s

/-- Modelled from the spec: `navigate(delta)` sets
`currentIndex = clamp(currentIndex + delta, 0, len(questions)-1)`.
This is the abstraction the spec gives of the Prev/Next handlers, kept separate so
the handlers of the code can be compared with it. -/
def navigateSpec (len : Nat) (idx delta : Int) : Int :=
  max 0 (min ((len : Int) - 1) (idx + delta))

/-- One answer-sheet operation: `select` is the body of
`handleAnswerSelect`, `clear` is the body of `clearResponse` applied with
the id of the question at the current index. -/
inductive AnswerOp where
  | select (questionId : Nat) (value : String)
  | clear (questionId : Nat)
deriving DecidableEq

/-- Apply one answer-sheet operation to the answers map. -/
def applyAnswerOp (m : List (Nat × String)) : AnswerOp → List (Nat × String)
  | .select q v => setKey m q v
  | .clear q => delKey m q

/-- What a single operation decides about question `q`: `some (some v)`
for `select q v`, `some none` for `clear q`, `none` when it touches a
different question. -/
def lastOpStep (op : AnswerOp) (q : Nat) : Option (Option String) :=
  match op with
  | .select q2 v => if q2 = q then some (some v) else none
  | .clear q2 => if q2 = q then some none else none

/-- The last operation touching question `q` in a head-first sequence:
`some (some v)` when it was `select q v`, `some none` when it was
`clear q`, `none` when no operation touched `q`. -/
def lastOp : List AnswerOp → Nat → Option (Option String)
  | [], _ => none
  | op :: rest, q =>
    match lastOp rest q with
    | some r => some r
    | none => lastOpStep op q

/-- Outcome of one resolution attempt inside `loadQuestions`: a failure
branch toasts and redirects, a success branch reaches the final
`if (loadedQuestions.length > 0)` check. -/
inductive LoadResult where
  | failure (redirectTarget : String)
  | success (loadedQuestions : List Question) (examName : String)
deriving DecidableEq

/-- What the controller does with a load result. -/
inductive LoadOutcome where
  | redirect (target : String)
  | startSession (questions : List Question)
  | stayLoading
deriving DecidableEq

/-- The tail of `loadQuestions` (lines 122-168): every failure branch
pushes a redirect and returns before `setQuestions`; a success branch
stores `loadedQuestions` unchanged — `setQuestions(loadedQuestions)`, the
defined `shuffleArray` is never applied — and only when the list is
non-empty; an empty success does nothing at all. -/
def finishLoad : LoadResult → LoadOutcome
  | .failure target => .redirect target
  | .success qs _ => if qs.length > 0 then .startSession qs else .stayLoading

/-- The timer/listener effect guard (lines 174-175): `if (!questions)
return;` — the interval and the two violation listeners are installed only
once `questions` is non-null. -/
def timerAndListenersInstalled (s : ExamState) : Bool :=
  s.questions.isSome

/-- What the component renders. -/
inductive Screen where
  | loading
  | exam
deriving DecidableEq

/-- The render branch (lines 235-242): `if (!questions)` shows the loading
screen, otherwise the exam screen. -/
def render (s : ExamState) : Screen :=
  if s.questions.isSome then Screen.exam else Screen.loading

/-- A concrete three-question session used by witnesses. -/
def demoQuestions : List Question :=
  [⟨1, "algebra", "q1", ["A", "B", "C", "D"], "A"⟩,
   ⟨2, "logic", "q2", ["T", "F"], "T"⟩,
   ⟨3, "units", "q3", ["A", "B"], "B"⟩]

/-- A freshly loaded session over `demoQuestions`. -/
def demoSession : ExamState :=
  { questions := some demoQuestions
    currentQuestionIndex := 0
    answers := []
    markedForReview := []
    timeLeft := EXAM_DURATION
    isSubmitDialogOpen := false
    isExitDialogOpen := false
    examName := "ECET Exam"
    isSubmitting := false
    startedAt := "2026-01-01T09:00:00.000Z"
    violationCount := 0
    isViolationDialogOpen := false
    violationMessage := ""
    timerCleared := false
    snapshotWrites := []
    navigations := []
    toasts := [] }

/-- State `demoSession` with the submission latch already set. -/
def demoSubmitted : ExamState :=
  { demoSession with isSubmitting := true }

/-- A concrete operation sequence used by witnesses: answer question 1,
answer question 2, re-answer question 1, clear question 2. -/
def demoOps : List AnswerOp :=
  [AnswerOp.select 1 "A", AnswerOp.select 2 "T",
   AnswerOp.select 1 "B", AnswerOp.clear 2]

/-! ### Basic lemmas about the submission latch -/

/-- Once the latch is set, `handleSubmit` returns the state unchanged. -/
theorem handleSubmit_of_isSubmitting (now : String) (s : ExamState)
    (h : s.isSubmitting = true) : handleSubmit now s = s := by
  simp [handleSubmit, h]

/-- The first `handleSubmit` call on an unsubmitted session with loaded
questions: set the latch, append the one snapshot, append the one
navigation. -/
theorem handleSubmit_eq (now : String) (s : ExamState) (qs : List Question)
    (h1 : s.isSubmitting = false) (h2 : s.questions = some qs) :
    handleSubmit now s =
      { s with
        isSubmitting := true,
        snapshotWrites := s.snapshotWrites ++
          [Snapshot.mk s.answers qs s.examName s.startedAt now],
        navigations := s.navigations ++ ["/results"] } := by
  simp [handleSubmit, h1, h2]

/-- Any number of further `handleSubmit` calls on a latched state is the
identity. -/
theorem foldl_handleSubmit_of_isSubmitting (calls : List String)
    (t : ExamState) (h : t.isSubmitting = true) :
    calls.foldl (fun u n => handleSubmit n u) t = t := by
  induction calls with
  | nil => rfl
  | cons c rest ih =>
      rw [List.foldl_cons, handleSubmit_of_isSubmitting c t h]
      exact ih

/-! ### C1: submission is idempotent -/

/-- C1: `submit` is idempotent — the first call on an unsubmitted session
sets the latch, writes exactly one result snapshot and schedules exactly
one navigation to `/results`; every subsequent call (any number, any
timestamp) leaves the state exactly as the first call left it, so no
further snapshot write and no further navigation occurs. -/
theorem submit_idempotent (s : ExamState) (qs : List Question)
    (now : String) (laterCalls : List String)
    (h1 : s.isSubmitting = false) (h2 : s.questions = some qs) :
    (handleSubmit now s).isSubmitting = true ∧
    (handleSubmit now s).snapshotWrites =
      s.snapshotWrites ++
        [Snapshot.mk s.answers qs s.examName s.startedAt now] ∧
    (handleSubmit now s).navigations = s.navigations ++ ["/results"] ∧
    laterCalls.foldl (fun t n => handleSubmit n t) (handleSubmit now s) =
      handleSubmit now s := by
  have he := handleSubmit_eq now s qs h1 h2
  refine ⟨?_, ?_, ?_, ?_⟩
  · rw [he]
  · rw [he]
  · rw [he]
  · exact foldl_handleSubmit_of_isSubmitting laterCalls _ (by rw [he])

/-- Witness for C1 at the concrete demo session and two later calls. -/
theorem submit_idempotent_witness :
    demoSession.isSubmitting = false ∧
    demoSession.questions = some demoQuestions ∧
    ((handleSubmit "t0" demoSession).isSubmitting = true ∧
      (handleSubmit "t0" demoSession).snapshotWrites =
        demoSession.snapshotWrites ++
          [Snapshot.mk demoSession.answers demoQuestions
            demoSession.examName demoSession.startedAt "t0"] ∧
      (handleSubmit "t0" demoSession).navigations =
        demoSession.navigations ++ ["/results"] ∧
      ["t1", "t2"].foldl (fun t n => handleSubmit n t)
          (handleSubmit "t0" demoSession) =
        handleSubmit "t0" demoSession) :=
  ⟨by decide, by decide,
    submit_idempotent demoSession demoQuestions "t0" ["t1", "t2"]
      (by decide) (by decide)⟩

/-- Function `clearResponse` ignores the latch and touches neither the snapshot
log nor the navigation log. -/
theorem clearResponse_unguarded (s : ExamState) :
    (clearResponse s).answers =
      (clearResponse { s with isSubmitting := false }).answers ∧
    (clearResponse s).snapshotWrites = s.snapshotWrites ∧
    (clearResponse s).navigations = s.navigations := by
  rcases hq : s.questions with _ | qs
  · simp [clearResponse, hq]
  · rcases hg : qs[s.currentQuestionIndex]? with _ | q
    · simp [clearResponse, hq, hg]
    · simp [clearResponse, hq, hg]

/-! ### C2: are mutators no-ops after submission? -/

/-- C2 counterexample: with the latch already set, `handleAnswerSelect`
still changes the `answers` map — post-submission mutators are not
no-ops in the code (they never consult the latch). -/
theorem post_submit_select_mutates :
    demoSubmitted.isSubmitting = true ∧
    (handleAnswerSelect 1 "B" demoSubmitted).answers ≠
      demoSubmitted.answers ∧
    (handleMarkForReview 1 demoSubmitted).markedForReview ≠
      demoSubmitted.markedForReview := by
  decide

/-- C2 (amended): after `submit` completes the mutators are not guarded by
the latch — `selectAnswer`, `clearAnswer` and `toggleReview` mutate
`answers`/`markedForReview` exactly as they would before submission — but
they leave the latch, the snapshot log and the navigation log untouched,
so the already-written result snapshot is unaffected. -/
theorem post_submit_mutators_unguarded (s : ExamState) (q : Nat)
    (v : String) (h : s.isSubmitting = true) :
    (handleAnswerSelect q v s).answers =
      (handleAnswerSelect q v { s with isSubmitting := false }).answers ∧
    (handleMarkForReview q s).markedForReview =
      (handleMarkForReview q { s with isSubmitting := false }).markedForReview ∧
    (clearResponse s).answers =
      (clearResponse { s with isSubmitting := false }).answers ∧
    (handleAnswerSelect q v s).isSubmitting = true ∧
    (handleAnswerSelect q v s).snapshotWrites = s.snapshotWrites ∧
    (handleAnswerSelect q v s).navigations = s.navigations ∧
    (handleMarkForReview q s).snapshotWrites = s.snapshotWrites ∧
    (handleMarkForReview q s).navigations = s.navigations ∧
    (clearResponse s).snapshotWrites = s.snapshotWrites ∧
    (clearResponse s).navigations = s.navigations := by
  obtain ⟨e1, e2, e3⟩ := clearResponse_unguarded s
  exact ⟨rfl, rfl, e1, by simp [handleAnswerSelect, h],
    by simp [handleAnswerSelect], by simp [handleAnswerSelect],
    by simp [handleMarkForReview], by simp [handleMarkForReview], e2, e3⟩

/-- Witness for C2 (amended) at the concrete submitted demo state. -/
theorem post_submit_mutators_unguarded_witness :
    demoSubmitted.isSubmitting = true ∧
    ((handleAnswerSelect 2 "T" demoSubmitted).answers =
      (handleAnswerSelect 2 "T"
        { demoSubmitted with isSubmitting := false }).answers ∧
    (handleMarkForReview 2 demoSubmitted).markedForReview =
      (handleMarkForReview 2
        { demoSubmitted with isSubmitting := false }).markedForReview ∧
    (clearResponse demoSubmitted).answers =
      (clearResponse { demoSubmitted with isSubmitting := false }).answers ∧
    (handleAnswerSelect 2 "T" demoSubmitted).isSubmitting = true ∧
    (handleAnswerSelect 2 "T" demoSubmitted).snapshotWrites =
      demoSubmitted.snapshotWrites ∧
    (handleAnswerSelect 2 "T" demoSubmitted).navigations =
      demoSubmitted.navigations ∧
    (handleMarkForReview 2 demoSubmitted).snapshotWrites =
      demoSubmitted.snapshotWrites ∧
    (handleMarkForReview 2 demoSubmitted).navigations =
      demoSubmitted.navigations ∧
    (clearResponse demoSubmitted).snapshotWrites =
      demoSubmitted.snapshotWrites ∧
    (clearResponse demoSubmitted).navigations =
      demoSubmitted.navigations) :=
  ⟨by decide, post_submit_mutators_unguarded demoSubmitted 2 "T" (by decide)⟩

/-! ### Lemmas about the violation monitor -/

/-- Below the threshold, `handleViolation` increments the counter and opens
the warning dialog with the escalating message. -/
theorem handleViolation_below (msg now : String) (t : ExamState)
    (hcount : t.violationCount + 1 < MAX_VIOLATIONS) :
    handleViolation msg now t =
      { t with
        violationCount := t.violationCount + 1,
        violationMessage := msg ++ ". You have " ++
          toString (MAX_VIOLATIONS - (t.violationCount + 1)) ++
          " warning(s) left.",
        isViolationDialogOpen := true } := by
  unfold handleViolation
  dsimp only
  rw [if_neg (by omega)]

/-- At or above the threshold, `handleViolation` on an unsubmitted session
increments the counter, toasts, and runs the full submission sequence; the
dialog flag is left as it was. -/
theorem handleViolation_terminate (msg now : String) (t : ExamState)
    (qs : List Question)
    (hcount : MAX_VIOLATIONS ≤ t.violationCount + 1)
    (hsub : t.isSubmitting = false) (hq : t.questions = some qs) :
    handleViolation msg now t =
      { t with
        violationCount := t.violationCount + 1,
        toasts := t.toasts ++ ["Exam Terminated"],
        isSubmitting := true,
        snapshotWrites := t.snapshotWrites ++
          [Snapshot.mk t.answers qs t.examName t.startedAt now],
        navigations := t.navigations ++ ["/results"] } := by
  unfold handleViolation
  dsimp only
  rw [if_pos hcount,
    handleSubmit_eq now _ qs (by simpa using hsub) (by simpa using hq)]

/-- On a latched state, `handleViolation` still increments the counter (and
below the threshold still opens the dialog) but `handleSubmit` inside it is
a no-op, so neither a snapshot nor a navigation is produced. -/
theorem handleViolation_of_isSubmitting (msg now : String) (t : ExamState)
    (h : t.isSubmitting = true) :
    (handleViolation msg now t).violationCount = t.violationCount + 1 ∧
    (handleViolation msg now t).snapshotWrites = t.snapshotWrites ∧
    (handleViolation msg now t).navigations = t.navigations ∧
    (t.violationCount + 1 < MAX_VIOLATIONS →
      (handleViolation msg now t).isViolationDialogOpen = true) := by
  unfold handleViolation
  dsimp only
  by_cases hc : MAX_VIOLATIONS ≤ t.violationCount + 1
  · rw [if_pos hc, handleSubmit_of_isSubmitting now _ (by simpa using h)]
    refine ⟨rfl, rfl, rfl, fun hlt => absurd hc (by omega)⟩
  · rw [if_neg hc]
    exact ⟨rfl, rfl, rfl, fun _ => rfl⟩

/-! ### C3: violation events after submission -/

/-- C3 counterexample: on a submitted session with zero prior violations, a
`TabHidden` event is not ignored — the count is incremented and the
warning dialog opens, so the monitor does not check submission status. -/
theorem post_submit_violation_counted :
    demoSubmitted.isSubmitting = true ∧
    (handleViolation tabHiddenMessage "t1" demoSubmitted).violationCount =
      demoSubmitted.violationCount + 1 ∧
    (handleViolation tabHiddenMessage "t1"
        demoSubmitted).isViolationDialogOpen = true := by
  decide

/-- C3 (amended): a violation event arriving after `submitted` is true still
increments the violation count and, below the threshold, still opens the
warning dialog; what it can no longer do is produce another snapshot write
or navigation, because `handleSubmit` inside it hits the latch. -/
theorem post_submit_violation_behavior (s : ExamState) (msg now : String)
    (h : s.isSubmitting = true) :
    (handleViolation msg now s).violationCount = s.violationCount + 1 ∧
    (handleViolation msg now s).snapshotWrites = s.snapshotWrites ∧
    (handleViolation msg now s).navigations = s.navigations ∧
    (s.violationCount + 1 < MAX_VIOLATIONS →
      (handleViolation msg now s).isViolationDialogOpen = true) :=
  handleViolation_of_isSubmitting msg now s h

/-- Witness for C3 (amended) at the concrete submitted demo state. -/
theorem post_submit_violation_behavior_witness :
    demoSubmitted.isSubmitting = true ∧
    ((handleViolation "m" "t" demoSubmitted).violationCount =
        demoSubmitted.violationCount + 1 ∧
      (handleViolation "m" "t" demoSubmitted).snapshotWrites =
        demoSubmitted.snapshotWrites ∧
      (handleViolation "m" "t" demoSubmitted).navigations =
        demoSubmitted.navigations ∧
      (demoSubmitted.violationCount + 1 < MAX_VIOLATIONS →
        (handleViolation "m" "t" demoSubmitted).isViolationDialogOpen =
          true)) :=
  ⟨by decide, post_submit_violation_behavior demoSubmitted "m" "t" (by decide)⟩

/-! ### C5: violation escalation and termination at the threshold -/

/-- C5: while unsubmitted, each violation increments the count; below the
threshold a warning dialog opens with message
`"<cause>. You have <MAX_VIOLATIONS - count> warning(s) left."` and no
submission happens, and at the threshold submission runs and no new dialog
opens.  In particular three `TabHidden` events on a fresh session yield
dialogs saying 2 then 1 warnings left, and the third event writes the one
snapshot and navigation with the dialog left closed. -/
theorem violation_escalation (s : ExamState) (qs : List Question)
    (now1 now2 now3 : String)
    (h1 : s.isSubmitting = false) (h2 : s.questions = some qs)
    (h3 : s.violationCount = 0) (h4 : s.snapshotWrites = [])
    (h5 : s.navigations = []) :
    (∀ (t : ExamState) (m n : String),
      (t.violationCount + 1 < MAX_VIOLATIONS →
        (handleViolation m n t).violationCount = t.violationCount + 1 ∧
        (handleViolation m n t).isViolationDialogOpen = true ∧
        (handleViolation m n t).violationMessage =
          m ++ ". You have " ++
            toString (MAX_VIOLATIONS - (t.violationCount + 1)) ++
            " warning(s) left." ∧
        (handleViolation m n t).snapshotWrites = t.snapshotWrites ∧
        (handleViolation m n t).navigations = t.navigations) ∧
      (MAX_VIOLATIONS ≤ t.violationCount + 1 → t.isSubmitting = false →
        t.questions = some qs →
        (handleViolation m n t).violationCount = t.violationCount + 1 ∧
        (handleViolation m n t).isSubmitting = true ∧
        (handleViolation m n t).snapshotWrites = t.snapshotWrites ++
          [Snapshot.mk t.answers qs t.examName t.startedAt n] ∧
        (handleViolation m n t).navigations =
          t.navigations ++ ["/results"] ∧
        (handleViolation m n t).isViolationDialogOpen =
          t.isViolationDialogOpen)) ∧
    (handleViolation tabHiddenMessage now1 s).isViolationDialogOpen =
      true ∧
    (handleViolation tabHiddenMessage now1 s).violationMessage =
      "You have switched to another tab or window. You have 2 warning(s) left." ∧
    (handleViolation tabHiddenMessage now1 s).snapshotWrites = [] ∧
    (handleViolation tabHiddenMessage now2 (acknowledgeViolation
        (handleViolation tabHiddenMessage now1 s))).isViolationDialogOpen =
      true ∧
    (handleViolation tabHiddenMessage now2 (acknowledgeViolation
        (handleViolation tabHiddenMessage now1 s))).violationMessage =
      "You have switched to another tab or window. You have 1 warning(s) left." ∧
    (handleViolation tabHiddenMessage now2 (acknowledgeViolation
        (handleViolation tabHiddenMessage now1 s))).snapshotWrites = [] ∧
    (handleViolation tabHiddenMessage now3 (acknowledgeViolation
        (handleViolation tabHiddenMessage now2 (acknowledgeViolation
          (handleViolation tabHiddenMessage now1 s))))).isViolationDialogOpen =
      false ∧
    (handleViolation tabHiddenMessage now3 (acknowledgeViolation
        (handleViolation tabHiddenMessage now2 (acknowledgeViolation
          (handleViolation tabHiddenMessage now1 s))))).isSubmitting =
      true ∧
    (handleViolation tabHiddenMessage now3 (acknowledgeViolation
        (handleViolation tabHiddenMessage now2 (acknowledgeViolation
          (handleViolation tabHiddenMessage now1 s))))).snapshotWrites =
      [Snapshot.mk s.answers qs s.examName s.startedAt now3] ∧
    (handleViolation tabHiddenMessage now3 (acknowledgeViolation
        (handleViolation tabHiddenMessage now2 (acknowledgeViolation
          (handleViolation tabHiddenMessage now1 s))))).navigations =
      ["/results"] := by
  have general : ∀ (t : ExamState) (m n : String),
      (t.violationCount + 1 < MAX_VIOLATIONS →
        (handleViolation m n t).violationCount = t.violationCount + 1 ∧
        (handleViolation m n t).isViolationDialogOpen = true ∧
        (handleViolation m n t).violationMessage =
          m ++ ". You have " ++
            toString (MAX_VIOLATIONS - (t.violationCount + 1)) ++
            " warning(s) left." ∧
        (handleViolation m n t).snapshotWrites = t.snapshotWrites ∧
        (handleViolation m n t).navigations = t.navigations) ∧
      (MAX_VIOLATIONS ≤ t.violationCount + 1 → t.isSubmitting = false →
        t.questions = some qs →
        (handleViolation m n t).violationCount = t.violationCount + 1 ∧
        (handleViolation m n t).isSubmitting = true ∧
        (handleViolation m n t).snapshotWrites = t.snapshotWrites ++
          [Snapshot.mk t.answers qs t.examName t.startedAt n] ∧
        (handleViolation m n t).navigations =
          t.navigations ++ ["/results"] ∧
        (handleViolation m n t).isViolationDialogOpen =
          t.isViolationDialogOpen) := by
    intro t m n
    constructor
    · intro hlt
      rw [handleViolation_below m n t hlt]
      exact ⟨rfl, rfl, rfl, rfl, rfl⟩
    · intro hge hsub hq
      rw [handleViolation_terminate m n t qs hge hsub hq]
      exact ⟨rfl, rfl, rfl, rfl, rfl⟩
  refine ⟨general, ?_, ?_, ?_, ?_, ?_, ?_, ?_, ?_, ?_, ?_⟩ <;>
    simp [handleViolation, handleSubmit, acknowledgeViolation,
      MAX_VIOLATIONS, tabHiddenMessage, h1, h2, h3, h4, h5] <;>
    decide

/-- Witness for C5 at the concrete demo session and three timestamps. -/
theorem violation_escalation_witness :
    demoSession.isSubmitting = false ∧
    demoSession.violationCount = 0 ∧
    (handleViolation tabHiddenMessage "n1" demoSession).violationMessage =
      "You have switched to another tab or window. You have 2 warning(s) left." ∧
    (handleViolation tabHiddenMessage "n3" (acknowledgeViolation
      (handleViolation tabHiddenMessage "n2" (acknowledgeViolation
        (handleViolation tabHiddenMessage "n1" demoSession))))).navigations =
      ["/results"] := by
  have h := violation_escalation demoSession demoQuestions "n1" "n2" "n3"
    (by decide) (by decide) (by decide) (by decide) (by decide)
  obtain ⟨-, -, hmsg, -, -, -, -, -, -, -, hnav⟩ := h
  exact ⟨by decide, by decide, hmsg, hnav⟩

/-! ### Lemmas about the countdown timer -/

/-- After `clearInterval` the tick callback never fires again. -/
theorem tick_of_timerCleared (now : String) (t : ExamState)
    (h : t.timerCleared = true) : tick now t = t := by
  unfold tick
  rw [if_pos (by simp [h])]

/-- Iterated form of `tick_of_timerCleared`. -/
theorem ticksN_of_timerCleared (now : String) (m : Nat) (t : ExamState)
    (h : t.timerCleared = true) : ticksN now m t = t := by
  induction m with
  | zero => rfl
  | succ n ih =>
      simp only [ticksN]
      rw [tick_of_timerCleared now t h]
      exact ih

/-- While live and with more than one second left, a tick only decrements
the clock. -/
theorem tick_decrement (now : String) (t : ExamState)
    (hclr : t.timerCleared = false) (hgt : 1 < t.timeLeft) :
    tick now t = { t with timeLeft := t.timeLeft - 1 } := by
  unfold tick
  rw [if_neg (by simp [hclr]), if_neg (by omega)]

/-- At one second left, the tick clears the interval, toasts, submits and
pins the clock to zero. -/
theorem tick_expire (now : String) (t : ExamState) (qs : List Question)
    (hclr : t.timerCleared = false) (hle : t.timeLeft ≤ 1)
    (hsub : t.isSubmitting = false) (hq : t.questions = some qs) :
    tick now t =
      { t with
        timeLeft := 0,
        timerCleared := true,
        toasts := t.toasts ++ ["Times Up"],
        isSubmitting := true,
        snapshotWrites := t.snapshotWrites ++
          [Snapshot.mk t.answers qs t.examName t.startedAt now],
        navigations := t.navigations ++ ["/results"] } := by
  unfold tick
  dsimp only
  rw [if_neg (by simp [hclr]), if_pos hle,
    handleSubmit_eq now _ qs (by simpa using hsub) (by simpa using hq)]

/-- While live, a tick decrements the clock by exactly one. -/
theorem tick_timeLeft (now : String) (t : ExamState)
    (hclr : t.timerCleared = false) (hpos : 1 ≤ t.timeLeft) :
    (tick now t).timeLeft = t.timeLeft - 1 := by
  by_cases hle : t.timeLeft ≤ 1
  · have h1 : t.timeLeft = 1 := by omega
    unfold tick
    rw [if_neg (by simp [hclr]), if_pos hle]
    simp [h1]
  · rw [tick_decrement now t hclr (by omega)]

/-- Running the interval for exactly `timeLeft` ticks on a live, unsubmitted
session drives the clock to zero, clears the interval and performs the one
submission. -/
theorem ticksN_countdown (now : String) (qs : List Question) :
    ∀ (c : Nat) (t : ExamState), t.timeLeft = c → 1 ≤ c →
      t.timerCleared = false → t.isSubmitting = false →
      t.questions = some qs →
      ticksN now c t =
        { t with
          timeLeft := 0,
          timerCleared := true,
          toasts := t.toasts ++ ["Times Up"],
          isSubmitting := true,
          snapshotWrites := t.snapshotWrites ++
            [Snapshot.mk t.answers qs t.examName t.startedAt now],
          navigations := t.navigations ++ ["/results"] } := by
  intro c
  induction c with
  | zero => intro t h1 h2 _ _ _; omega
  | succ n ih =>
      intro t h1 h2 hclr hsub hq
      by_cases hn : n = 0
      · subst hn
        simp only [ticksN]
        rw [tick_expire now t qs hclr (by omega) hsub hq]
      · simp only [ticksN]
        rw [tick_decrement now t hclr (by omega)]
        exact ih _ (by simp [h1]) (by omega) (by simpa using hclr)
          (by simpa using hsub) (by simpa using hq)

/-! ### C6: the countdown reaches zero and submits exactly once -/

/-- C6: `remainingSeconds` starts at the fixed duration 7200; while the
interval is live and the session unsubmitted every tick decrements it by
exactly one; after 7200 ticks it is 0 and exactly one snapshot has been
written; and from then on it stays 0 with no further submission — any
number of further ticks changes nothing. -/
theorem timer_expiry (s : ExamState) (qs : List Question) (now : String)
    (h0 : s.timeLeft = EXAM_DURATION) (h1 : s.timerCleared = false)
    (h2 : s.isSubmitting = false) (h3 : s.questions = some qs)
    (h4 : s.snapshotWrites = []) :
    EXAM_DURATION = 7200 ∧
    (∀ t : ExamState, t.timerCleared = false → t.isSubmitting = false →
      1 ≤ t.timeLeft → (tick now t).timeLeft = t.timeLeft - 1) ∧
    (ticksN now EXAM_DURATION s).timeLeft = 0 ∧
    (ticksN now EXAM_DURATION s).snapshotWrites =
      [Snapshot.mk s.answers qs s.examName s.startedAt now] ∧
    (∀ m, ticksN now m (ticksN now EXAM_DURATION s) =
      ticksN now EXAM_DURATION s) := by
  have hrun := ticksN_countdown now qs EXAM_DURATION s h0 (by decide) h1 h2 h3
  refine ⟨rfl, fun t ha hb hc => tick_timeLeft now t ha hc, ?_, ?_, ?_⟩
  · rw [hrun]
  · rw [hrun]
    simp [h4]
  · intro m
    exact ticksN_of_timerCleared now m _ (by rw [hrun])

/-- Witness for C6 at the concrete demo session. -/
theorem timer_expiry_witness :
    demoSession.timeLeft = EXAM_DURATION ∧
    demoSession.timerCleared = false ∧
    demoSession.isSubmitting = false ∧
    (ticksN "t9" EXAM_DURATION demoSession).timeLeft = 0 ∧
    (ticksN "t9" EXAM_DURATION demoSession).snapshotWrites =
      [Snapshot.mk demoSession.answers demoQuestions demoSession.examName
        demoSession.startedAt "t9"] := by
  have h := timer_expiry demoSession demoQuestions "t9" (by decide)
    (by decide) (by decide) (by decide) (by decide)
  exact ⟨by decide, by decide, by decide, h.2.2.1, h.2.2.2.1⟩

/-! ### C7: navigation clamps and never leaves the index range -/

/-- The Prev handler agrees with the navigate clamp of the spec, `navigateSpec`, at `delta = -1` on
any in-range index. -/
theorem prevClick_eq_navigateSpec (s : ExamState) (qs : List Question)
    (hlt : s.currentQuestionIndex < qs.length) :
    ((prevClick s).currentQuestionIndex : Int) =
      navigateSpec qs.length s.currentQuestionIndex (-1) := by
  unfold prevClick navigateSpec
  dsimp only
  omega

/-- The Next handler agrees with the navigate clamp of the spec, `navigateSpec`, at `delta = 1` on
any in-range index. -/
theorem nextClick_eq_navigateSpec (s : ExamState) (qs : List Question)
    (hq : s.questions = some qs)
    (hlt : s.currentQuestionIndex < qs.length) :
    ((nextClick s).currentQuestionIndex : Int) =
      navigateSpec qs.length s.currentQuestionIndex 1 := by
  unfold nextClick navigateSpec
  rw [hq]
  dsimp only
  omega

/-- Both handlers keep `questions` intact and the index strictly below the
question count. -/
theorem navClick_preserves (s : ExamState) (qs : List Question)
    (hq : s.questions = some qs)
    (hlt : s.currentQuestionIndex < qs.length) (b : Bool) :
    (if b then nextClick s else prevClick s).questions = some qs ∧
    (if b then nextClick s else prevClick s).currentQuestionIndex <
      qs.length := by
  rcases b
  · show (prevClick s).questions = some qs ∧
      (prevClick s).currentQuestionIndex < qs.length
    unfold prevClick
    dsimp only
    exact ⟨hq, by omega⟩
  · show (nextClick s).questions = some qs ∧
      (nextClick s).currentQuestionIndex < qs.length
    unfold nextClick
    rw [hq]
    dsimp only
    exact ⟨rfl, by omega⟩

/-- Any sequence of Prev/Next presses keeps the index in range. -/
theorem applyNav_index_lt (presses : List Bool) :
    ∀ (s : ExamState) (qs : List Question), s.questions = some qs →
      s.currentQuestionIndex < qs.length →
      (applyNav presses s).questions = some qs ∧
      (applyNav presses s).currentQuestionIndex < qs.length := by
  induction presses with
  | nil => intro s qs hq hlt; exact ⟨hq, hlt⟩
  | cons b rest ih =>
      intro s qs hq hlt
      simp only [applyNav, List.foldl_cons] at ih ⊢
      obtain ⟨hq2, hlt2⟩ := navClick_preserves s qs hq hlt b
      exact ih _ qs hq2 hlt2

/-- C7: the Prev/Next handlers implement the specified
`navigate(delta) = clamp(currentIndex + delta, 0, len(questions)-1)` at
their deltas of -1 and +1; the clamp always lands in
`[0, len(questions)-1]` for every delta magnitude; and any sequence of
repeated presses keeps `currentIndex` within `[0, len(questions)-1]`. -/
theorem navigation_clamped (s : ExamState) (qs : List Question)
    (delta : Int) (presses : List Bool)
    (hq : s.questions = some qs)
    (hlt : s.currentQuestionIndex < qs.length) :
    ((prevClick s).currentQuestionIndex : Int) =
      navigateSpec qs.length s.currentQuestionIndex (-1) ∧
    ((nextClick s).currentQuestionIndex : Int) =
      navigateSpec qs.length s.currentQuestionIndex 1 ∧
    (∀ (idx : Int), 0 ≤ navigateSpec qs.length idx delta ∧
      navigateSpec qs.length idx delta ≤ (qs.length : Int) - 1) ∧
    (applyNav presses s).currentQuestionIndex < qs.length := by
  refine ⟨prevClick_eq_navigateSpec s qs hlt,
    nextClick_eq_navigateSpec s qs hq hlt, ?_, ?_⟩
  · intro idx
    unfold navigateSpec
    constructor
    · omega
    · have hlen : 1 ≤ qs.length := by omega
      omega
  · exact (applyNav_index_lt presses s qs hq hlt).2

/-- Witness for C7 at the concrete demo session, a large delta and a long
press sequence. -/
theorem navigation_clamped_witness :
    demoSession.questions = some demoQuestions ∧
    demoSession.currentQuestionIndex < demoQuestions.length ∧
    ((0 ≤ navigateSpec demoQuestions.length 1 100 ∧
      navigateSpec demoQuestions.length 1 100 ≤
        (demoQuestions.length : Int) - 1) ∧
    (applyNav [true, true, true, true, false, false, false, false, true]
        demoSession).currentQuestionIndex < demoQuestions.length) := by
  have h := navigation_clamped demoSession demoQuestions 100
    [true, true, true, true, false, false, false, false, true]
    (by decide) (by decide)
  exact ⟨by decide, by decide, h.2.2.1 1, h.2.2.2⟩

/-! ### C8: toggling review twice restores membership -/

/-- Function `handleMarkForReview` stores exactly `toggleReviewList`. -/
theorem handleMarkForReview_markedForReview (q : Nat) (s : ExamState) :
    (handleMarkForReview q s).markedForReview =
      toggleReviewList s.markedForReview q := rfl

/-- Toggling the same id twice preserves membership exactly, and is the
identity on the list when the id was absent. -/
theorem toggleReviewList_twice (l : List Nat) (q : Nat) :
    (∀ x, x ∈ toggleReviewList (toggleReviewList l q) q ↔ x ∈ l) ∧
    (q ∉ l → toggleReviewList (toggleReviewList l q) q = l) := by
  by_cases hq : q ∈ l
  · have hc1 : l.contains q = true := by simpa using hq
    have step1 : toggleReviewList l q = l.filter (fun id => id ≠ q) := by
      unfold toggleReviewList
      rw [hc1]
      simp
    have hc2 : (l.filter (fun id => id ≠ q)).contains q = false := by
      simp
    have step2 : toggleReviewList (toggleReviewList l q) q =
        l.filter (fun id => id ≠ q) ++ [q] := by
      rw [step1]
      unfold toggleReviewList
      rw [hc2]
      simp
    constructor
    · intro x
      rw [step2]
      by_cases hx : x = q
      · subst hx
        simp [hq]
      · simp [hx, List.mem_filter]
    · intro hcontra
      exact absurd hq hcontra
  · have hc1 : l.contains q = false := by simpa using hq
    have step1 : toggleReviewList l q = l ++ [q] := by
      unfold toggleReviewList
      rw [hc1]
      simp
    have hc2 : (l ++ [q]).contains q = true := by simp
    have hfe : l.filter (fun id => id ≠ q) = l := by
      rw [List.filter_eq_self]
      intro a ha
      simp only [decide_eq_true_eq]
      intro hcontr
      exact hq (hcontr ▸ ha)
    have step2 : toggleReviewList (toggleReviewList l q) q = l := by
      rw [step1]
      unfold toggleReviewList
      rw [hc2]
      simp [List.filter_append, hfe]
      intro a ha hcontr
      exact hq (hcontr ▸ ha)
    exact ⟨fun x => by rw [step2], fun _ => step2⟩

/-- C8: `toggleReview` adds the id when absent and removes it when present,
so applying it twice to the same id returns `markedForReview` to its
original membership — and to the very same list when the id was absent. -/
theorem toggle_review_twice (s : ExamState) (q : Nat) :
    (∀ x, x ∈ (handleMarkForReview q
        (handleMarkForReview q s)).markedForReview ↔
      x ∈ s.markedForReview) ∧
    (q ∉ s.markedForReview →
      (handleMarkForReview q (handleMarkForReview q s)).markedForReview =
        s.markedForReview) := by
  have h := toggleReviewList_twice s.markedForReview q
  have e : (handleMarkForReview q
      (handleMarkForReview q s)).markedForReview =
      toggleReviewList (toggleReviewList s.markedForReview q) q := rfl
  rw [e]
  exact h

/-- Witness for C8: toggling 5 twice on a session whose review list is
`[7, 3]` (not containing 5) restores the list. -/
theorem toggle_review_twice_witness :
    (5 : Nat) ∉
      ({ demoSession with markedForReview := [7, 3] } :
        ExamState).markedForReview ∧
    (handleMarkForReview 5 (handleMarkForReview 5
        { demoSession with markedForReview := [7, 3] })).markedForReview =
      ({ demoSession with markedForReview := [7, 3] } :
        ExamState).markedForReview :=
  ⟨by decide,
    (toggle_review_twice { demoSession with markedForReview := [7, 3] } 5).2
      (by decide)⟩

/-! ### C9: the stored question list is the loaded one, unshuffled -/

/-- C9: a successful non-empty load stores exactly the loaded list, element
for element and in its original order (`shuffleArray` is never applied);
conversely a session only ever starts with precisely the list a successful
load produced. -/
theorem questions_stored_unshuffled (qs : List Question) (name : String)
    (h : 0 < qs.length) :
    finishLoad (LoadResult.success qs name) = LoadOutcome.startSession qs ∧
    (∀ (r : LoadResult) (qs2 : List Question),
      finishLoad r = LoadOutcome.startSession qs2 →
      ∃ name2, r = LoadResult.success qs2 name2) := by
  constructor
  · simp only [finishLoad]
    rw [if_pos h]
  · intro r qs2 hr
    rcases r with target | ⟨qs3, name3⟩
    · simp [finishLoad] at hr
    · refine ⟨name3, ?_⟩
      simp only [finishLoad] at hr
      by_cases h3 : qs3.length > 0
      · rw [if_pos h3] at hr
        injection hr with h4
        rw [h4]
      · rw [if_neg h3] at hr
        cases hr

/-- Witness for C9 at the concrete demo question list. -/
theorem questions_stored_unshuffled_witness :
    0 < demoQuestions.length ∧
    finishLoad (LoadResult.success demoQuestions "ECET Exam") =
      LoadOutcome.startSession demoQuestions :=
  ⟨by decide,
    (questions_stored_unshuffled demoQuestions "ECET Exam" (by decide)).1⟩

/-! ### C10: an empty successful load leaves the loading screen up -/

/-- C10: when resolution succeeds with an empty question list, the
controller neither starts a session nor redirects — the outcome is to stay
loading; and whenever `questions` is still null, the timer and the
violation listeners are not installed and the loading screen is rendered. -/
theorem empty_load_stays_loading (name : String) :
    finishLoad (LoadResult.success [] name) = LoadOutcome.stayLoading ∧
    (∀ target, finishLoad (LoadResult.success [] name) ≠
      LoadOutcome.redirect target) ∧
    (∀ qs, finishLoad (LoadResult.success [] name) ≠
      LoadOutcome.startSession qs) ∧
    (∀ s : ExamState, s.questions = none →
      timerAndListenersInstalled s = false ∧ render s = Screen.loading) := by
  refine ⟨rfl, ?_, ?_, ?_⟩
  · intro target h
    cases h
  · intro qs h
    cases h
  · intro s hs
    constructor
    · simp [timerAndListenersInstalled, hs]
    · simp [render, hs]

/-- Witness for C10 at a concrete empty load and a concrete unloaded
state. -/
theorem empty_load_stays_loading_witness :
    finishLoad (LoadResult.success [] "E") = LoadOutcome.stayLoading ∧
    ({ demoSession with questions := none } : ExamState).questions = none ∧
    timerAndListenersInstalled { demoSession with questions := none } =
      false ∧
    render { demoSession with questions := none } = Screen.loading := by
  have h := empty_load_stays_loading "E"
  have h2 := h.2.2.2 { demoSession with questions := none } (by decide)
  exact ⟨h.1, by decide, h2.1, h2.2⟩

/-! ### Lemmas about the answers map -/

/-- A key held by no entry is not found. -/
theorem lookupKey_eq_none_of_forall (m : List (Nat × String)) (k : Nat)
    (h : ∀ p ∈ m, p.1 ≠ k) : lookupKey m k = none := by
  induction m with
  | nil => rfl
  | cons p rest ih =>
      unfold lookupKey
      rw [if_neg (h p (by simp))]
      exact ih (fun p2 hp2 => h p2 (by simp [hp2]))

/-- Lookup distributes over append, preferring the left list. -/
theorem lookupKey_append (m1 m2 : List (Nat × String)) (k : Nat) :
    lookupKey (m1 ++ m2) k =
      match lookupKey m1 k with
      | some v => some v
      | none => lookupKey m2 k := by
  induction m1 with
  | nil => rfl
  | cons p rest ih =>
      by_cases hp : p.1 = k
      · simp [lookupKey, hp]
      · simp [lookupKey, hp, ih]

/-- Overwriting every entry of the key yields that value on lookup, as
long as some entry held the key. -/
theorem lookupKey_mapReplace_self (m : List (Nat × String)) (k : Nat)
    (v : String) (h : m.any (fun p => p.1 = k) = true) :
    lookupKey (m.map (fun p => if p.1 = k then (k, v) else p)) k =
      some v := by
  induction m with
  | nil => simp at h
  | cons p rest ih =>
      by_cases hp : p.1 = k
      · simp [lookupKey, hp]
      · have h2 : rest.any (fun p => p.1 = k) = true := by
          simp only [List.any_cons, Bool.or_eq_true, decide_eq_true_eq] at h
          rcases h with h | h
          · exact absurd h hp
          · exact h
        simp [lookupKey, hp, ih h2]

/-- Replacing entries of one key leaves lookups of other keys alone. -/
theorem lookupKey_mapReplace_ne (m : List (Nat × String)) (k k2 : Nat)
    (v : String) (h : k2 ≠ k) :
    lookupKey (m.map (fun p => if p.1 = k then (k, v) else p)) k2 =
      lookupKey m k2 := by
  induction m with
  | nil => rfl
  | cons p rest ih =>
      by_cases hp : p.1 = k
      · simp [lookupKey, hp, Ne.symm h, ih]
      · simp [lookupKey, hp, ih]

/-- Updating with `setKey` stores the value under the key. -/
theorem lookupKey_setKey_self (m : List (Nat × String)) (k : Nat)
    (v : String) : lookupKey (setKey m k v) k = some v := by
  unfold setKey
  by_cases h : m.any (fun p => p.1 = k) = true
  · rw [if_pos h]
    exact lookupKey_mapReplace_self m k v h
  · rw [if_neg h]
    rw [lookupKey_append]
    have hnone : lookupKey m k = none := by
      apply lookupKey_eq_none_of_forall
      intro p hp hk
      exact h (by
        simp only [List.any_eq_true, decide_eq_true_eq]
        exact ⟨p, hp, hk⟩)
    rw [hnone]
    simp [lookupKey]

/-- Updating with `setKey` leaves other keys alone. -/
theorem lookupKey_setKey_ne (m : List (Nat × String)) (k k2 : Nat)
    (v : String) (h : k2 ≠ k) :
    lookupKey (setKey m k v) k2 = lookupKey m k2 := by
  unfold setKey
  by_cases ha : m.any (fun p => p.1 = k) = true
  · rw [if_pos ha]
    exact lookupKey_mapReplace_ne m k k2 v h
  · rw [if_neg ha]
    rw [lookupKey_append]
    rcases hm : lookupKey m k2 with _ | v2
    · simp [lookupKey, Ne.symm h]
    · simp

/-- Deleting with `delKey` removes the key. -/
theorem lookupKey_delKey_self (m : List (Nat × String)) (k : Nat) :
    lookupKey (delKey m k) k = none := by
  apply lookupKey_eq_none_of_forall
  intro p hp
  simp only [delKey, List.mem_filter, decide_eq_true_eq] at hp
  exact hp.2

/-- Deleting with `delKey` leaves other keys alone. -/
theorem lookupKey_delKey_ne (m : List (Nat × String)) (k k2 : Nat)
    (h : k2 ≠ k) : lookupKey (delKey m k) k2 = lookupKey m k2 := by
  induction m with
  | nil => rfl
  | cons p rest ih =>
      simp only [delKey, decide_not] at ih ⊢
      by_cases hp : p.1 = k
      · have hkk : ¬k = k2 := fun hh => h hh.symm
        simp [lookupKey, List.filter_cons, hp, hkk, ih]
      · simp [lookupKey, List.filter_cons, hp, ih]

/-- Unfolding equation for `lastOp` on a cons cell. -/
theorem lastOp_cons (op : AnswerOp) (rest : List AnswerOp) (q : Nat) :
    lastOp (op :: rest) q =
      match lastOp rest q with
      | some r => some r
      | none => lastOpStep op q := rfl

/-- The final lookup after a head-first operation sequence is decided by
the last operation touching the key, falling back to the initial map. -/
theorem lookupKey_foldl_applyAnswerOp (ops : List AnswerOp) :
    ∀ (m : List (Nat × String)) (q : Nat),
      lookupKey (ops.foldl applyAnswerOp m) q =
        match lastOp ops q with
        | some r => r
        | none => lookupKey m q := by
  induction ops with
  | nil => intro m q; rfl
  | cons op rest ih =>
      intro m q
      rw [List.foldl_cons, ih, lastOp_cons]
      rcases hrest : lastOp rest q with _ | r
      · rcases op with ⟨q2, v⟩ | q2
        · by_cases hq : q2 = q
          · subst hq
            simp [lastOpStep, applyAnswerOp, lookupKey_setKey_self]
          · simp [lastOpStep, hq, applyAnswerOp,
              lookupKey_setKey_ne _ _ _ _ (Ne.symm hq)]
        · by_cases hq : q2 = q
          · subst hq
            simp [lastOpStep, applyAnswerOp, lookupKey_delKey_self]
          · simp [lastOpStep, hq, applyAnswerOp,
              lookupKey_delKey_ne _ _ _ (Ne.symm hq)]
      · simp

/-- When the last operation on `q` stored `v`, the sequence really does
contain `select q v`. -/
theorem lastOp_select_mem (ops : List AnswerOp) (q : Nat) (v : String) :
    lastOp ops q = some (some v) → AnswerOp.select q v ∈ ops := by
  induction ops with
  | nil => intro h; cases h
  | cons op rest ih =>
      intro h
      rw [lastOp_cons] at h
      rcases hrest : lastOp rest q with _ | r
      · rw [hrest] at h
        have h2 : lastOpStep op q = some (some v) := h
        rcases op with ⟨q2, v2⟩ | q2
        · dsimp only [lastOpStep] at h2
          by_cases hq : q2 = q
          · rw [if_pos hq] at h2
            injection h2 with h3
            injection h3 with h4
            simp [List.mem_cons, hq, h4]
          · rw [if_neg hq] at h2
            cases h2
        · dsimp only [lastOpStep] at h2
          by_cases hq : q2 = q
          · rw [if_pos hq] at h2
            injection h2 with h3
            cases h3
          · rw [if_neg hq] at h2
            cases h2
      · rw [hrest] at h
        have h2 : some r = some (some v) := h
        injection h2 with h3
        rw [h3] at hrest
        exact List.mem_cons_of_mem _ (ih hrest)

/-! ### C4: last-write-wins, and (non-)validation of selected values -/

/-- C4 counterexample: `handleAnswerSelect` given the value `"Z"`, which is
not among the options of question 1, silently stores it in the answers map —
there is no validation against the option list. -/
theorem invalid_selection_stored :
    (∃ question ∈ demoQuestions, question.id = 1 ∧
      "Z" ∉ question.options) ∧
    lookupKey (handleAnswerSelect 1 "Z" demoSession).answers 1 =
      some "Z" := by
  decide

/-- C4 (amended): for every pre-submission operation sequence the final
answers map reflects exactly the last operation per question id, and its
values stay within the option lists of the questions whenever every `select` in
the sequence used a listed option value; but `selectAnswer` itself performs
no validation — the guarantee is conditional on the callers (the option
radio buttons), not enforced by the mutator, and an out-of-options value
would be silently stored. -/
theorem answers_last_write_wins (ops : List AnswerOp) (q : Nat)
    (qs : List Question)
    (hvalid : ∀ qid v, AnswerOp.select qid v ∈ ops →
      ∃ question ∈ qs, question.id = qid ∧ v ∈ question.options) :
    (lookupKey (ops.foldl applyAnswerOp []) q = (lastOp ops q).join) ∧
    (∀ v, lookupKey (ops.foldl applyAnswerOp []) q = some v →
      ∃ question ∈ qs, question.id = q ∧ v ∈ question.options) ∧
    (∀ (s : ExamState) (qid : Nat) (v : String),
      (handleAnswerSelect qid v s).answers =
        applyAnswerOp s.answers (AnswerOp.select qid v)) ∧
    (∀ (s : ExamState) (qsl : List Question) (question : Question),
      s.questions = some qsl →
      qsl[s.currentQuestionIndex]? = some question →
      (clearResponse s).answers =
        applyAnswerOp s.answers (AnswerOp.clear question.id)) := by
  have hfold := lookupKey_foldl_applyAnswerOp ops [] q
  refine ⟨?_, ?_, fun s qid v => rfl, ?_⟩
  · rw [hfold]
    rcases lastOp ops q with _ | r
    · rfl
    · rfl
  · intro v hv
    rw [hfold] at hv
    rcases hrest : lastOp ops q with _ | r
    · rw [hrest] at hv
      have hv2 : (none : Option String) = some v := hv
      cases hv2
    · rw [hrest] at hv
      have hv2 : r = some v := hv
      rw [hv2] at hrest
      exact hvalid q v (lastOp_select_mem ops q v hrest)
  · intro s qsl question hq hg
    unfold clearResponse
    rw [hq]
    dsimp only
    rw [hg]
    rfl

/-- Witness for C4 (amended) on the concrete operation sequence
`demoOps`: the last write to question 1 was `"B"`. -/
theorem answers_last_write_wins_witness :
    lookupKey (demoOps.foldl applyAnswerOp []) 1 =
      (lastOp demoOps 1).join ∧
    lookupKey (demoOps.foldl applyAnswerOp []) 1 = some "B" := by
  have hvalid : ∀ qid v, AnswerOp.select qid v ∈ demoOps →
      ∃ question ∈ demoQuestions, question.id = qid ∧
        v ∈ question.options := by
    intro qid v hmem
    simp [demoOps] at hmem
    rcases hmem with ⟨h1, h2⟩ | ⟨h1, h2⟩ | ⟨h1, h2⟩ <;>
      rw [h1, h2] <;> decide
  have h := answers_last_write_wins demoOps 1 demoQuestions hvalid
  exact ⟨h.1, by decide⟩

end ExamClient
